import Mathlib

/-!
Verification of the legal-document analysis pipeline (Legal-AI-Agent).

This file shallowly embeds the pipeline's data model and the operations of
its stages, translated from the repository's Python sources:

* `models/document_models.py` — the Pydantic data model (structures below);
* `agents/information_extractor.py` — `InformationExtractionAgent.run`
  (`extractorRun` / `extractorCompute` below);
* `agents/compliance_analyzer.py` — `_assess_rule_with_llm` and
  `ComplianceAnalyzerAgent.run` (`assess_rule_with_llm` / `complianceRun`);
* `agents/knowledge_graph_agent.py` — `_sanitize_id`, `_add_node`,
  `_add_edge`, `KnowledgeGraphAgent.run` (`sanitize_id`, `add_node`,
  `add_edge`, `kgRun`);
* `agents/rag_agent.py` — `_retrieve_context` and `RAGAgent.run`
  (`retrieveContext` / `ragRun`).

External collaborators (the language-model call, JSON serialization by the
pydantic library, the Redis cache, `uuid.uuid4`) are modelled as explicit
parameters: the model call is an `Except LLMError _` outcome, serialization
is a function bundle `JsonDump`, the cache is an association list, and the
uuid stream is a `Nat → String` supply consumed via a counter.

Python-specific conventions kept in the embedding: Python's truthiness of
strings/options (`x or d` falls through on `None` and on the empty string)
is `pyOr`; `str.strip`/`lower`/`find`/slicing are modelled on `List Char`;
Python `float` amounts are modelled as `Int` (no claim depends on
fractional arithmetic); `dict` is an association list whose first binding
for a key wins on lookup.
-/

/-- Python `None`-able scalar values stored in open `Dict[str, Any]`
records (clause records, node/edge attribute maps). -/
inductive PyVal where
  | vstr (s : String)
  | vint (n : Int)
  | vnone
deriving DecidableEq, Repr

/-- Python truthiness of a `PyVal` (`"" `, `0` and `None` are falsy). -/
def PyVal.truthy : PyVal → Bool
  | .vstr s => s ≠ ""
  | .vint n => n ≠ 0
  | .vnone => false

/-- Python `str(v)` / f-string rendering of a `PyVal`. -/
def PyVal.render : PyVal → String
  | .vstr s => s
  | .vint n => toString n
  | .vnone => "None"

/-- An optional string as a `PyVal` (Pydantic `Optional[str]` field dump). -/
def optVal : Option String → PyVal
  | some s => .vstr s
  | none => .vnone

/-- Python `x or d` for an optional string: falls through to the default
when the value is `None` or the empty string (both falsy). -/
def pyOr (o : Option String) (d : String) : String :=
  match o with
  | some s => if s = "" then d else s
  | none => d

/-- Python `str.strip()` (whitespace trimmed from both ends). -/
def stripChars (l : List Char) : List Char :=
  ((l.dropWhile Char.isWhitespace).reverse.dropWhile Char.isWhitespace).reverse

/-- Python `str.strip()` on a `String`. -/
def stripStr (s : String) : String := String.mk (stripChars s.data)

/-- Python `str.lower()` (per-character, ASCII model). -/
def lowerStr (s : String) : String := String.mk (s.data.map Char.toLower)

/-- Contiguous-sublist test: Python `needle in hay` for strings. -/
def containsSub (hay needle : List Char) : Bool :=
  match hay with
  | [] => needle.isEmpty
  | c :: t => needle.isPrefixOf (c :: t) || containsSub t needle

/-- Python `needle in hay` on `String`s. -/
def strContains (hay needle : String) : Bool := containsSub hay.data needle.data

/-- Index of the first occurrence of `needle` in `hay`
(Python `str.find`; the callers below only use it under a guard that the
needle occurs, so the not-found junk value `hay.length` is never reached
where Python would return `-1`). -/
def idxOfSub (hay needle : List Char) : Nat :=
  match hay with
  | [] => 0
  | c :: t => if needle.isPrefixOf (c :: t) then 0 else idxOfSub t needle + 1

/-- Python `datetime.date` (year, month, day). -/
structure PyDate where
  year : Nat
  month : Nat
  day : Nat
deriving DecidableEq, Repr

/-- Zero-pad a numeral to two digits. -/
def pad2 (n : Nat) : String := if n < 10 then "0" ++ toString n else toString n

/-- Zero-pad a year to four digits. -/
def pad4 (n : Nat) : String :=
  if n < 10 then "000" ++ toString n
  else if n < 100 then "00" ++ toString n
  else if n < 1000 then "0" ++ toString n
  else toString n

/-- Python `date.isoformat()` (also `str(date)`). -/
def PyDate.iso (d : PyDate) : String :=
  pad4 d.year ++ "-" ++ pad2 d.month ++ "-" ++ pad2 d.day

/-- An open `Dict[str, Any]` record (raw clause records). -/
abbrev ClauseRec : Type := List (String × PyVal)

/-- Python `dict.get(k)` on an association-list record. -/
def recGet (r : ClauseRec) (k : String) : Option PyVal :=
  (r.find? (fun kv => kv.1 == k)).map (·.2)

/-- Python `dict.get(k, default)` rendered as a string
(used for `clause_dict.get('clause_text', '')`). -/
def recGetStr (r : ClauseRec) (k : String) : String :=
  match recGet r k with
  | some v => v.render
  | none => ""

/-- Python `{"k": v, **rec}` dict merge: keys of the literal come first,
`rec`'s bindings override on key collision. -/
def recMerge (base rec : ClauseRec) : ClauseRec :=
  base.map (fun kv => (kv.1, ((rec.find? (fun kv2 => kv2.1 == kv.1)).map (·.2)).getD kv.2))
    ++ rec.filter (fun kv => !(base.any (fun kv2 => kv2.1 == kv.1)))

-- ------------------------------------------------------------------
-- Data model (models/document_models.py)
-- ------------------------------------------------------------------

/-- `Sentence` (models/document_models.py). -/
structure Sentence where
  text : String
  index : Nat
deriving DecidableEq, Repr

/-- `Paragraph` (models/document_models.py). -/
structure Paragraph where
  text : String
  index : Nat
  sentences : List Sentence := []
deriving DecidableEq, Repr

/-- `DocumentContent` (models/document_models.py). -/
structure DocumentContent where
  text_content : String
  file_name : String
  file_type : String
  paragraphs : List Paragraph := []
deriving DecidableEq, Repr

/-- `Party` (models/document_models.py). -/
structure Party where
  name : String
  role : Option String := none
  address : Option String := none
  contact_info : Option String := none
  entity_type : Option String := none
  extracted_text : Option String := none
deriving DecidableEq, Repr

/-- `DateClause` (models/document_models.py). -/
structure DateClause where
  date_type : String
  date_value : PyDate
  context : Option String := none
  related_to : Option String := none
deriving DecidableEq, Repr

/-- `MonetaryValue` (models/document_models.py). Python `float` amounts
are modelled as `Int`: no claim below depends on fractional values. -/
structure MonetaryValue where
  amount : Int
  currency : String
  context : Option String := none
  reason : Option String := none
  payment_frequency : Option String := none
deriving DecidableEq, Repr

/-- `DefinedTerm` (models/document_models.py). -/
structure DefinedTerm where
  term : String
  definition : String
  location : Option String := none
deriving DecidableEq, Repr

/-- `ExtractedEntities` (models/document_models.py): all list fields
default to the empty list, all scalars to `None`. -/
structure ExtractedEntities where
  document_type : Option String := none
  document_title : Option String := none
  document_effective_date : Option PyDate := none
  parties : List Party := []
  jurisdiction : Option String := none
  dates : List DateClause := []
  monetary_values : List MonetaryValue := []
  defined_terms : List DefinedTerm := []
  indemnification_clauses : List ClauseRec := []
  force_majeure_clauses : List ClauseRec := []
  governing_law_clauses : List ClauseRec := []
  confidentiality_clauses : List ClauseRec := []
  termination_clauses : List ClauseRec := []
  analysis_summary : Option String := none
deriving DecidableEq, Repr

/-- `ComplianceRule` (models/document_models.py); the severity literal is
modelled as its string value. -/
structure ComplianceRule where
  rule_id : String
  name : String
  description : String
  check_criteria : String
  severity_level : String := "Medium"
  recommendation_template : String
deriving DecidableEq, Repr

/-- `ComplianceFinding` (models/document_models.py). -/
structure ComplianceFinding where
  rule_id : String
  rule_description : String
  is_compliant : Bool
  finding_details : Option String := none
  relevant_text_snippets : List String := []
  severity : String := "Informational"
  recommendation : Option String := none
deriving DecidableEq, Repr

/-- `Node` (models/document_models.py); the `Dict[str, Any]` attribute
map is an association list of `PyVal`s. -/
structure Node where
  id : String
  type : String
  name : String
  attributes : List (String × PyVal) := []
deriving DecidableEq, Repr

/-- `Edge` (models/document_models.py). -/
structure Edge where
  source_id : String
  target_id : String
  type : String
  attributes : List (String × PyVal) := []
deriving DecidableEq, Repr

/-- `KnowledgeGraph` (models/document_models.py). -/
structure KnowledgeGraph where
  nodes : List Node := []
  edges : List Edge := []
deriving DecidableEq, Repr

/-- `RAGResponse` (models/document_models.py); the confidence literal is
modelled as its string value. -/
structure RAGResponse where
  answer : String
  confidence : String := "Medium"
  relevant_snippets : List String := []
  source_nodes : List String := []
deriving DecidableEq, Repr

/-- `DocumentMetadata` (models/document_models.py). -/
structure DocumentMetadata where
  document_type : String
  title : Option String := none
  effective_date : Option PyDate := none
  parties_summary : List Party := []
  jurisdiction : Option String := none
  version : Option String := none
deriving DecidableEq, Repr

/-- `DocumentAnalysisResult` (models/document_models.py). -/
structure DocumentAnalysisResult where
  document_id : String
  file_name : String
  metadata : DocumentMetadata
  extracted_parties : List Party := []
  extracted_dates : List DateClause := []
  extracted_monetary_values : List MonetaryValue := []
  extracted_defined_terms : List DefinedTerm := []
  extracted_clauses_summary : List (String × List ClauseRec) := []
  compliance_findings : List ComplianceFinding := []
  analysis_summary : String
  full_text_content : String
  paragraphs : List Paragraph := []
  knowledge_graph : Option KnowledgeGraph := none
deriving DecidableEq, Repr

/-- Outcome of a call to the external model collaborator: a structured
value, a Pydantic `ValidationError`, or any other exception. -/
inductive LLMError where
  | validation (msg : String)
  | other (msg : String)
deriving DecidableEq, Repr

-- ------------------------------------------------------------------
-- Extraction stage (agents/information_extractor.py)
-- ------------------------------------------------------------------

/-- The context truncation bound of `InformationExtractionAgent.run`. -/
def CONTEXT_LIMIT_CHARS : Nat := 10000

/-- Text sent to the collaborator: truncated to the context bound
(`information_extractor.py`, lines 52-56). -/
def textForLLM (t : String) : String :=
  if t.length > CONTEXT_LIMIT_CHARS then String.mk (t.data.take CONTEXT_LIMIT_CHARS) else t

/-- The bundle the stage proceeds with: the collaborator's output on
success, the all-default `ExtractedEntities()` on any failure
(`information_extractor.py`, lines 73-92). -/
def llmBundle (llm : Except LLMError ExtractedEntities) : ExtractedEntities :=
  match llm with
  | .ok e => e
  | .error _ => {}

/-- `effective_date_keywords` (`information_extractor.py`, lines 96-99),
in priority order. -/
def effectiveDateKeywords : List String :=
  ["effective date", "policy date", "agreement date",
   "execution date", "document date", "date"]

/-- The keyword scan of `information_extractor.py`, lines 101-108:
keywords tried in priority order, each against every date entry in list
order; a non-empty type label containing the keyword (case-insensitive)
wins. -/
def findKeywordDate (dates : List DateClause) : Option PyDate :=
  effectiveDateKeywords.findSome? (fun kw =>
    dates.findSome? (fun d =>
      if d.date_type ≠ "" ∧ strContains (lowerStr d.date_type) kw = true
      then some d.date_value else none))

/-- `primary_effective_date` derivation (`information_extractor.py`,
lines 94-112): the explicit date if extracted; otherwise the keyword
scan over the date list; otherwise the first date; `None` when the date
list is empty. -/
def derivePrimaryDate (e : ExtractedEntities) : Option PyDate :=
  match e.document_effective_date with
  | some d => some d
  | none =>
    match e.dates with
    | [] => none
    | d0 :: _ =>
      match findKeywordDate e.dates with
      | some v => some v
      | none => some d0.date_value

/-- `extracted_clauses_dict` (`information_extractor.py`, lines 123-130):
the five clause lists keyed by type name, empty types removed. -/
def clausesDict (e : ExtractedEntities) : List (String × List ClauseRec) :=
  ([("IndemnificationClause", e.indemnification_clauses),
    ("ForceMajeureClause", e.force_majeure_clauses),
    ("GoverningLawClause", e.governing_law_clauses),
    ("ConfidentialityClause", e.confidentiality_clauses),
    ("TerminationClause", e.termination_clauses)]).filter
      (fun kv => !kv.2.isEmpty)

/-- The cache key of `InformationExtractionAgent.run`
(`information_extractor.py`, line 38). -/
def cacheKeyOf (document_id : String) : String :=
  "full_analysis_cache:" ++ document_id

/-- The extraction cache: keys to cached entries; a `none` entry models
a cached dict that fails `DocumentAnalysisResult.model_validate`. -/
abbrev ExtractionCache : Type := List (String × Option DocumentAnalysisResult)

/-- Cache lookup (`self.cache.get(cache_key)`). -/
def cacheLookup (cache : ExtractionCache) (k : String) :
    Option (Option DocumentAnalysisResult) :=
  (cache.find? (fun kv => kv.1 == k)).map (·.2)

/-- The cache-miss body of `InformationExtractionAgent.run`
(`information_extractor.py`, lines 50-151): take the collaborator's
bundle (all-default on failure), derive the primary effective date,
assemble `DocumentMetadata` with its defaults, and package the full
`DocumentAnalysisResult`. -/
def extractorCompute (document_id : String) (llm : Except LLMError ExtractedEntities)
    (doc : DocumentContent) : DocumentAnalysisResult :=
  let e := llmBundle llm
  let primary := derivePrimaryDate e
  let metadata : DocumentMetadata := {
    document_type := pyOr e.document_type "Uncategorized"
    title := some (pyOr e.document_title doc.file_name)
    effective_date := primary
    parties_summary := e.parties
    jurisdiction := e.jurisdiction }
  { document_id := document_id
    file_name := doc.file_name
    metadata := metadata
    extracted_parties := e.parties
    extracted_dates := e.dates
    extracted_monetary_values := e.monetary_values
    extracted_defined_terms := e.defined_terms
    extracted_clauses_summary := clausesDict e
    compliance_findings := []
    analysis_summary := pyOr e.analysis_summary "No summary generated by LLM."
    full_text_content := doc.text_content
    paragraphs := doc.paragraphs
    knowledge_graph := none }

/-- `InformationExtractionAgent.run` (`information_extractor.py`,
lines 32-151): generate the cache key from the freshly supplied
`document_id`, return a valid cached result on a hit, otherwise (miss,
or invalid cached dict) run the full extraction path. -/
def extractorRun (document_id : String) (cache : ExtractionCache)
    (llm : Except LLMError ExtractedEntities) (doc : DocumentContent) :
    DocumentAnalysisResult :=
  match cacheLookup cache (cacheKeyOf document_id) with
  | some (some r) => r
  | _ => extractorCompute document_id llm doc

-- ------------------------------------------------------------------
-- Compliance stage (agents/compliance_analyzer.py)
-- ------------------------------------------------------------------

/-- `RuleAssessmentOutput` (compliance_analyzer.py, lines 15-23). -/
structure RuleAssessmentOutput where
  rule_id : String
  is_compliant : Bool
  finding_details : Option String := none
  relevant_text_snippets : List String := []
  recommendation : Option String := none
deriving DecidableEq, Repr

/-- The hardcoded rule set of `_load_compliance_rules`
(compliance_analyzer.py, lines 38-78). -/
def loadComplianceRules : List ComplianceRule :=
  [{ rule_id := "NDA-001"
     name := "Confidentiality Period Check (NDA)"
     description := "Ensures that a Confidentiality Clause specifies a duration of at least 3 years for confidentiality obligations."
     check_criteria := "Look for a 'ConfidentialityClause' and verify if the 'duration_years' field is present and >= 3."
     severity_level := "High"
     recommendation_template := "Ensure the Confidentiality Clause specifies a duration of at least 3 years to adequately protect sensitive information." },
   { rule_id := "LEASE-001"
     name := "Lease Agreement - Rent Amount Presence"
     description := "Verifies that a rent amount is explicitly stated in a Lease Agreement."
     check_criteria := "Check if the 'monetary_values' list contains an item with 'reason' as 'Rent' and a valid 'amount'."
     severity_level := "Critical"
     recommendation_template := "The Lease Agreement must explicitly state the rent amount to avoid financial disputes." },
   { rule_id := "GDPR-001"
     name := "GDPR Data Minimization Principle"
     description := "Checks if the document mentions principles related to data minimization (e.g., collecting only necessary data)."
     check_criteria := "Analyze the document summary and relevant sections for mentions of 'data minimization', 'collect only necessary data', or similar phrases."
     severity_level := "Medium"
     recommendation_template := "Consider adding stronger language around data minimization principles to align more closely with GDPR requirements." },
   { rule_id := "TERMINATION-001"
     name := "Termination Notice Period Check"
     description := "Ensures a termination clause exists and specifies a notice period."
     check_criteria := "Check if a 'TerminationClause' exists and if its 'notice_period_days' is specified."
     severity_level := "High"
     recommendation_template := "A termination clause should clearly define the notice period (in days) required for contract termination to prevent ambiguity." }]

/-- The error-derived detail message of the synthetic assessment
(compliance_analyzer.py, lines 110-127). -/
def ruleFailureDetails : LLMError → String
  | .validation m => "LLM failed to produce valid assessment output: " ++ m
  | .other m => "An unexpected error occurred during LLM rule assessment: " ++ m

/-- The recommendation of the synthetic assessment
(compliance_analyzer.py, lines 110-127). -/
def ruleFailureRecommendation : LLMError → String
  | .validation _ => "Internal system error during rule assessment. Check LLM output format."
  | .other _ => "Internal system error during rule assessment."

/-- The collaborator for rule assessment: rule, document text and
extracted data in, a validated `RuleAssessmentOutput` or a failure out. -/
abbrev RuleOracle : Type :=
  ComplianceRule → String → ExtractedEntities → Except LLMError RuleAssessmentOutput

/-- `_assess_rule_with_llm` (compliance_analyzer.py, lines 80-127): the
collaborator's output on success; on a validation error or any other
exception, a synthetic non-compliant assessment for the same rule id
carrying an error-derived detail message. -/
def assess_rule_with_llm (oracle : RuleOracle) (rule : ComplianceRule)
    (document_text : String) (extracted_data : ExtractedEntities) :
    RuleAssessmentOutput :=
  match oracle rule document_text extracted_data with
  | .ok out => out
  | .error e =>
    { rule_id := rule.rule_id
      is_compliant := false
      finding_details := some (ruleFailureDetails e)
      relevant_text_snippets := []
      recommendation := some (ruleFailureRecommendation e) }

/-- `dict.get(k, [])` on the clause-summary mapping
(compliance_analyzer.py, lines 151-155). -/
def getClauses (a : DocumentAnalysisResult) (k : String) : List ClauseRec :=
  match a.extracted_clauses_summary.find? (fun kv => kv.1 == k) with
  | some kv => kv.2
  | none => []

/-- The `ExtractedEntities` re-instantiated from the analysis result
(compliance_analyzer.py, lines 141-156). -/
def entitiesOfResult (a : DocumentAnalysisResult) : ExtractedEntities :=
  { document_type := some a.metadata.document_type
    document_title := a.metadata.title
    document_effective_date := a.metadata.effective_date
    parties := a.extracted_parties
    jurisdiction := a.metadata.jurisdiction
    dates := a.extracted_dates
    monetary_values := a.extracted_monetary_values
    defined_terms := a.extracted_defined_terms
    indemnification_clauses := getClauses a "IndemnificationClause"
    force_majeure_clauses := getClauses a "ForceMajeureClause"
    governing_law_clauses := getClauses a "GoverningLawClause"
    confidentiality_clauses := getClauses a "ConfidentialityClause"
    termination_clauses := getClauses a "TerminationClause"
    analysis_summary := some a.analysis_summary }

/-- The `ComplianceFinding` built from one rule's assessment
(compliance_analyzer.py, lines 169-177): rule id, description and
severity come from the rule; the recommendation falls back to the
rule's template when the assessment produced none (Python `or`). -/
def mkFinding (rule : ComplianceRule) (out : RuleAssessmentOutput) : ComplianceFinding :=
  { rule_id := rule.rule_id
    rule_description := rule.description
    is_compliant := out.is_compliant
    finding_details := out.finding_details
    relevant_text_snippets := out.relevant_text_snippets
    recommendation := some (pyOr out.recommendation rule.recommendation_template)
    severity := rule.severity_level }

/-- `ComplianceAnalyzerAgent.run` (compliance_analyzer.py,
lines 130-183): assess every rule of the rule set in declaration order
against the document text and the re-instantiated entity bundle, and
replace `compliance_findings` with the collected findings. -/
def complianceRun (rules : List ComplianceRule) (oracle : RuleOracle)
    (a : DocumentAnalysisResult) : DocumentAnalysisResult :=
  let extracted_entities := entitiesOfResult a
  let findings := rules.map (fun rule =>
    mkFinding rule (assess_rule_with_llm oracle rule a.full_text_content extracted_entities))
  { a with compliance_findings := findings }

-- ------------------------------------------------------------------
-- Query stage (agents/rag_agent.py)
-- ------------------------------------------------------------------

/-- The pydantic `model_dump_json` serializers used only to build the
collaborator's context text (external library, opaque to the claims). -/
structure JsonDump where
  resultDump : DocumentAnalysisResult → String
  nodeDump : Node → String
  edgeDump : Edge → String

/-- Python `"sep".join(parts)`. -/
def joinStr (sep : String) : List String → String
  | [] => ""
  | h :: t => t.foldl (fun acc s => acc ++ sep ++ s) h

/-- `max_snippet_chars` (rag_agent.py, line 48). -/
def maxSnippetChars : Nat := 500

/-- The snippet cut from one matching paragraph (rag_agent.py,
lines 52-57): a window from 50 characters before the first match,
bounded to 500 characters, stripped and ellipsis-suffixed when the
paragraph was truncated on the right. -/
def mkSnippet (query_lower : String) (ptext : String) : String :=
  let pos := idxOfSub (lowerStr ptext).data query_lower.data
  let start := pos - 50
  let stop := min ptext.data.length (start + maxSnippetChars)
  let snippet := String.mk ((ptext.data.drop start).take (stop - start))
  if ptext.data.length > maxSnippetChars then
    if stop < ptext.data.length then stripStr snippet ++ "..." else stripStr snippet
  else snippet

/-- The paragraph-scan loop of `_retrieve_context` (rag_agent.py,
lines 51-60): collect a snippet from every paragraph containing the
lowered query, stopping once 3 snippets are collected. -/
def snipLoop (query_lower : String) (ps : List Paragraph) (acc : List String) :
    List String :=
  match ps with
  | [] => acc
  | p :: rest =>
    if strContains (lowerStr p.text) query_lower then
      let acc2 := acc ++ [mkSnippet query_lower p.text]
      if acc2.length ≥ 3 then acc2 else snipLoop query_lower rest acc2
    else snipLoop query_lower rest acc

/-- Node keyword match (rag_agent.py, line 71): the lowered query occurs
in the node's name or in the rendering of any attribute value. -/
def nodeMatches (query_lower : String) (n : Node) : Bool :=
  strContains (lowerStr n.name) query_lower
    || n.attributes.any (fun kv => strContains (lowerStr kv.2.render) query_lower)

/-- Edge keyword match (rag_agent.py, line 76): the lowered query occurs
in the edge type, or either endpoint is an already-matched node id. -/
def edgeMatches (query_lower : String) (ids : List String) (e : Edge) : Bool :=
  strContains (lowerStr e.type) query_lower
    || ids.contains e.source_id || ids.contains e.target_id

/-- The knowledge-graph part of the context (rag_agent.py, lines 66-85):
the matched nodes' ids and the assembled summary text. -/
def kgSummary (jd : JsonDump) (query_lower : String) (kg : KnowledgeGraph) :
    String × List String :=
  let matched := kg.nodes.filter (nodeMatches query_lower)
  let ids := matched.map (·.id)
  let nodesInfo := matched.map jd.nodeDump
  let edgesInfo := (kg.edges.filter (edgeMatches query_lower ids)).map jd.edgeDump
  let t1 := if nodesInfo.isEmpty then "" else
    "Knowledge Graph Nodes:\n" ++ joinStr "\n" nodesInfo ++ "\n"
  let t2 := if edgesInfo.isEmpty then "" else
    "Knowledge Graph Edges:\n" ++ joinStr "\n" edgesInfo ++ "\n"
  (t1 ++ t2, ids)

/-- `_retrieve_context` (rag_agent.py, lines 28-94) for a loaded
document: the concatenated context text, the keyword-matched snippets
(at most 3) and the keyword-matched knowledge-graph node ids. -/
def retrieveContext (jd : JsonDump) (a : DocumentAnalysisResult) (query : String) :
    String × List String × List String :=
  let query_lower := lowerStr query
  let part1 := "--- Full Document Analysis Result (JSON) ---\n" ++ jd.resultDump a
  let snippets := snipLoop query_lower a.paragraphs []
  let kgPart := match a.knowledge_graph with
    | none => ("", [])
    | some kg => kgSummary jd query_lower kg
  let parts := [part1]
    ++ (if snippets.isEmpty then [] else
        ["--- Relevant Document Snippets ---\n" ++ joinStr "\n" snippets])
    ++ (if kgPart.1 = "" then [] else ["--- Knowledge Graph Data ---\n" ++ kgPart.1])
  (joinStr "\n\n" parts, snippets, kgPart.2)

/-- `RAGAgent.run` (rag_agent.py, lines 97-148): canned low-confidence
response when no context is loaded; otherwise retrieve context, delegate
to the collaborator, and on success overwrite the response's citation
lists with the locally computed ones; collaborator failures degrade to
canned low-confidence error responses. -/
def ragRun (jd : JsonDump) (state : Option DocumentAnalysisResult) (query : String)
    (llm : Except LLMError RAGResponse) : RAGResponse :=
  match state with
  | none => { answer := "Please load a document first.", confidence := "Low" }
  | some a =>
    let rc := retrieveContext jd a query
    if rc.1 = "" then
      { answer := "Could not find relevant context in the document.", confidence := "Low" }
    else
      match llm with
      | .ok resp =>
        { resp with relevant_snippets := rc.2.1, source_nodes := rc.2.2 }
      | .error (.validation m) =>
        { answer := "Failed to generate valid RAG response due to schema mismatch. Details: " ++ m
          confidence := "Low" }
      | .error (.other m) =>
        { answer := "An error occurred during RAG processing: " ++ m, confidence := "Low" }

-- ------------------------------------------------------------------
-- Knowledge Graph stage (agents/knowledge_graph_agent.py)
-- ------------------------------------------------------------------

/-- The builder state of `KnowledgeGraphAgent` (`self.nodes`,
`self.edges`, `self.id_map`); `ctr` is the position in the uuid supply
consumed by clause-node id generation. -/
structure KGState where
  nodes : List Node := []
  edges : List Edge := []
  idMap : List String := []
  ctr : Nat := 0
deriving Repr

/-- `_sanitize_id` (knowledge_graph_agent.py, lines 27-30): strip,
spaces to underscores, dots and commas removed, non-word characters
(other than `-`) removed, truncated to 50 characters. -/
def sanitize_id (text : String) : String :=
  let stripped := stripChars text.data
  let replaced := stripped.map (fun c => if c = ' ' then '_' else c)
  let noPunct := replaced.filter (fun c => c != '.' && c != ',')
  String.mk ((noPunct.filter (fun c => c.isAlphanum || c = '_' || c = '-')).take 50)

/-- `_add_node` (knowledge_graph_agent.py, lines 32-47): append a fresh
node and mark its id; for an already-present id, leave the state
unchanged and return the existing node (`none` models the
`ValueError` raised when `id_map` and `nodes` disagree, which the
well-formedness invariant below rules out). -/
def add_node (s : KGState) (node_id node_type name : String)
    (attributes : List (String × PyVal)) : KGState × Option Node :=
  if node_id ∈ s.idMap then
    (s, s.nodes.find? (fun n => n.id == node_id))
  else
    let node : Node := { id := node_id, type := node_type, name := name
                         attributes := attributes }
    ({ s with nodes := s.nodes ++ [node], idMap := s.idMap ++ [node_id] }, some node)

/-- `_add_edge` (knowledge_graph_agent.py, lines 50-58): silently drop
the edge (warning only) when either endpoint id was never added as a
node; otherwise append it. -/
def add_edge (s : KGState) (source_id target_id edge_type : String)
    (attributes : List (String × PyVal)) : KGState :=
  if source_id ∉ s.idMap ∨ target_id ∉ s.idMap then s
  else { s with edges := s.edges ++ [{ source_id := source_id, target_id := target_id
                                       type := edge_type, attributes := attributes }] }

/-- `party.model_dump()` as a node attribute map. -/
def partyDump (p : Party) : List (String × PyVal) :=
  [("name", .vstr p.name), ("role", optVal p.role), ("address", optVal p.address),
   ("contact_info", optVal p.contact_info), ("entity_type", optVal p.entity_type),
   ("extracted_text", optVal p.extracted_text)]

/-- `date_clause.model_dump()` as a node attribute map. -/
def dateDump (d : DateClause) : List (String × PyVal) :=
  [("date_type", .vstr d.date_type), ("date_value", .vstr d.date_value.iso),
   ("context", optVal d.context), ("related_to", optVal d.related_to)]

/-- `mv.model_dump()` as a node attribute map. -/
def mvDump (mv : MonetaryValue) : List (String × PyVal) :=
  [("amount", .vint mv.amount), ("currency", .vstr mv.currency),
   ("context", optVal mv.context), ("reason", optVal mv.reason),
   ("payment_frequency", optVal mv.payment_frequency)]

/-- `dt.model_dump()` as a node attribute map. -/
def dtDump (dt : DefinedTerm) : List (String × PyVal) :=
  [("term", .vstr dt.term), ("definition", .vstr dt.definition),
   ("location", optVal dt.location)]

/-- Python `upper()` on the clause-type name. -/
def upperStr (s : String) : String := String.mk (s.data.map Char.toUpper)

/-- Python `clause_type.replace("Clause", "")`: every occurrence of the
substring removed. -/
def removeClauseWord (l : List Char) : List Char :=
  match l with
  | [] => []
  | c :: t =>
    if "Clause".data.isPrefixOf (c :: t) then removeClauseWord (t.drop 5)
    else c :: removeClauseWord t
termination_by l.length
decreasing_by
  · simp only [List.length_cons, List.length_drop]
    omega
  · simp [List.length_cons]

/-- The effective-date step of `KnowledgeGraphAgent.run`
(knowledge_graph_agent.py, lines 83-86). -/
def procEffectiveDate (docId : String) (md : DocumentMetadata) (s : KGState) : KGState :=
  match md.effective_date with
  | none => s
  | some d =>
    let dateId := "Date:" ++ d.iso
    let s := (add_node s dateId "Date" d.iso [("type", .vstr "Effective Date")]).1
    add_edge s docId dateId "HAS_EFFECTIVE_DATE" []

/-- The jurisdiction step of `KnowledgeGraphAgent.run`
(knowledge_graph_agent.py, lines 88-91); Python truthiness skips both a
missing and an empty jurisdiction. -/
def procJurisdiction (docId : String) (md : DocumentMetadata) (s : KGState) : KGState :=
  match md.jurisdiction with
  | none => s
  | some j =>
    if j = "" then s
    else
      let jid := "Jurisdiction:" ++ sanitize_id j
      let s := (add_node s jid "Jurisdiction" j []).1
      add_edge s docId jid "GOVERNED_BY" []

/-- One party step (knowledge_graph_agent.py, lines 94-97). -/
def procParty (docId : String) (s : KGState) (p : Party) : KGState :=
  let pid := "Party:" ++ sanitize_id p.name
  let s := (add_node s pid "Party" p.name (partyDump p)).1
  add_edge s docId pid "HAS_PARTY" [("role", optVal p.role)]

/-- One date-clause step (knowledge_graph_agent.py, lines 100-103);
`date_clause.date_type or ''` is the identity on the (string-typed)
type label since falsy strings are exactly the empty string. -/
def procDate (docId : String) (s : KGState) (d : DateClause) : KGState :=
  let dateId := "Date:" ++ sanitize_id d.date_value.iso ++ "-" ++ sanitize_id d.date_type
  let s := (add_node s dateId "Date" d.date_value.iso (dateDump d)).1
  add_edge s docId dateId "REFERENCES_DATE" [("type", .vstr d.date_type)]

/-- One monetary-value step (knowledge_graph_agent.py, lines 106-109). -/
def procMV (docId : String) (s : KGState) (mv : MonetaryValue) : KGState :=
  let mvId := "MonetaryValue:" ++ toString mv.amount ++ "_" ++ mv.currency
  let s := (add_node s mvId "MonetaryValue"
    (toString mv.amount ++ " " ++ mv.currency) (mvDump mv)).1
  add_edge s docId mvId "HAS_MONETARY_VALUE" [("reason", optVal mv.reason)]

/-- One defined-term step (knowledge_graph_agent.py, lines 112-115). -/
def procTerm (docId : String) (s : KGState) (dt : DefinedTerm) : KGState :=
  let termId := "DefinedTerm:" ++ sanitize_id dt.term
  let s := (add_node s termId "DefinedTerm" dt.term (dtDump dt)).1
  add_edge s docId termId "DEFINES" [("definition", .vstr dt.definition)]

/-- One clause step (knowledge_graph_agent.py, lines 119-127): a
Clause node with a uuid-suffixed id drawn from the supply, the
`HAS_<CLAUSETYPE>` edge, and — for a confidentiality clause with a
truthy `duration_years` — a Duration node and `HAS_DURATION` edge. -/
def procClause (sup : Nat → String) (docId clause_type : String) (s : KGState)
    (clause_dict : ClauseRec) : KGState :=
  let u := sup s.ctr
  let s := { s with ctr := s.ctr + 1 }
  let clauseId := "Clause:" ++ clause_type ++ ":" ++ u
  let excerpt := String.mk ((recGetStr clause_dict "clause_text").data.take 100)
  let attrs := recMerge [("text_excerpt", .vstr excerpt)] clause_dict
  let s := (add_node s clauseId "Clause"
    (String.mk (removeClauseWord clause_type.data)) attrs).1
  let s := add_edge s docId clauseId ("HAS_" ++ upperStr clause_type) []
  if clause_type = "ConfidentialityClause"
      ∧ ((recGet clause_dict "duration_years").map PyVal.truthy).getD false = true then
    let dv := (((recGet clause_dict "duration_years").map PyVal.render).getD "None")
    let durId := "Duration:" ++ dv ++ "Years"
    let s := (add_node s durId "Duration" (dv ++ " Years") []).1
    add_edge s clauseId durId "HAS_DURATION" []
  else s

/-- The attribute map of the Document node
(knowledge_graph_agent.py, lines 75-80). -/
def docAttrs (a : DocumentAnalysisResult) : List (String × PyVal) :=
  [("file_name", .vstr a.file_name),
   ("document_type", .vstr a.metadata.document_type),
   ("analysis_summary", .vstr a.analysis_summary)]

/-- The whole graph-construction sequence of `KnowledgeGraphAgent.run`
(knowledge_graph_agent.py, lines 64-128), from the freshly reset state:
Document node, metadata relationships, then parties, dates, monetary
values, defined terms and clauses in order. -/
def buildState (sup : Nat → String) (a : DocumentAnalysisResult) : KGState :=
  let docId := "Document:" ++ a.document_id
  let s : KGState := {}
  let s := (add_node s docId "Document" (pyOr a.metadata.title a.file_name) (docAttrs a)).1
  let s := procEffectiveDate docId a.metadata s
  let s := procJurisdiction docId a.metadata s
  let s := a.extracted_parties.foldl (procParty docId) s
  let s := a.extracted_dates.foldl (procDate docId) s
  let s := a.extracted_monetary_values.foldl (procMV docId) s
  let s := a.extracted_defined_terms.foldl (procTerm docId) s
  a.extracted_clauses_summary.foldl
    (fun s kv => kv.2.foldl (procClause sup docId kv.1) s) s

/-- `KnowledgeGraphAgent.run` (knowledge_graph_agent.py, lines 60-141):
rebuild the graph from scratch and store it in the result's
`knowledge_graph` field (cache write is an external side effect). -/
def kgRun (sup : Nat → String) (a : DocumentAnalysisResult) : DocumentAnalysisResult :=
  let st := buildState sup a
  { a with knowledge_graph := some { nodes := st.nodes, edges := st.edges } }

-- ------------------------------------------------------------------
-- Helper lemmas
-- ------------------------------------------------------------------

theorem string_append_left_cancel (p a b : String) (h : p ++ a = p ++ b) : a = b := by
  apply String.ext
  have h2 := congrArg String.data h
  rw [String.data_append, String.data_append] at h2
  exact List.append_cancel_left h2

theorem string_append_ne_empty_left (s t : String) (hs : s ≠ "") : s ++ t ≠ "" := by
  intro h
  apply hs
  apply String.ext
  have h2 := congrArg String.data h
  rw [String.data_append] at h2
  simpa using (List.append_eq_nil.mp (by simpa using h2)).1

theorem foldl_sep_ne_empty (sep : String) (t : List String) :
    ∀ acc : String, acc ≠ "" → t.foldl (fun a s => a ++ sep ++ s) acc ≠ "" := by
  induction t with
  | nil => exact fun acc h => h
  | cons x xs ih =>
    intro acc h
    exact ih _ (string_append_ne_empty_left _ _ (string_append_ne_empty_left _ _ h))

theorem joinStr_cons_ne_empty (sep h : String) (t : List String) (hh : h ≠ "") :
    joinStr sep (h :: t) ≠ "" :=
  foldl_sep_ne_empty sep t h hh

theorem foldl_preserve {α : Type _} {β : Type _} (P : α → Prop) (f : α → β → α)
    (hf : ∀ s x, P s → P (f s x)) :
    ∀ (l : List β) (s : α), P s → P (l.foldl f s) := by
  intro l
  induction l with
  | nil => exact fun s h => h
  | cons x xs ih => exact fun s h => ih (f s x) (hf s x h)

theorem getD_map_of_lt {α β : Type _} (f : α → β) (l : List α) (i : Nat)
    (h : i < l.length) (d : β) (d' : α) : (l.map f).getD i d = f (l.getD i d') := by
  rw [List.getD_eq_getElem?_getD, List.getD_eq_getElem?_getD, List.getElem?_map]
  rw [List.getElem?_eq_getElem h]
  rfl

theorem pyOr_ne_empty (o : Option String) (d : String) (hd : d ≠ "") : pyOr o d ≠ "" := by
  cases o with
  | none => simpa [pyOr] using hd
  | some s =>
    by_cases h : s = "" <;> simp [pyOr, h, hd]

theorem pyOr_default (o : Option String) (d : String) (h : o = none ∨ o = some "") :
    pyOr o d = d := by
  rcases h with h | h <;> simp [pyOr, h]

-- ------------------------------------------------------------------
-- C9 — frame property of the enrichment stages
-- ------------------------------------------------------------------

/-- C9: the Compliance stage modifies only `compliance_findings` and the
Knowledge Graph stage modifies only `knowledge_graph`; every other field
of the analysis result is unchanged on return from both stages. -/
theorem enrichment_frame_property :
    ∀ (rules : List ComplianceRule) (oracle : RuleOracle) (sup : Nat → String)
      (a : DocumentAnalysisResult),
      ((complianceRun rules oracle a).document_id = a.document_id
        ∧ (complianceRun rules oracle a).file_name = a.file_name
        ∧ (complianceRun rules oracle a).metadata = a.metadata
        ∧ (complianceRun rules oracle a).extracted_parties = a.extracted_parties
        ∧ (complianceRun rules oracle a).extracted_dates = a.extracted_dates
        ∧ (complianceRun rules oracle a).extracted_monetary_values
            = a.extracted_monetary_values
        ∧ (complianceRun rules oracle a).extracted_defined_terms
            = a.extracted_defined_terms
        ∧ (complianceRun rules oracle a).extracted_clauses_summary
            = a.extracted_clauses_summary
        ∧ (complianceRun rules oracle a).analysis_summary = a.analysis_summary
        ∧ (complianceRun rules oracle a).full_text_content = a.full_text_content
        ∧ (complianceRun rules oracle a).paragraphs = a.paragraphs
        ∧ (complianceRun rules oracle a).knowledge_graph = a.knowledge_graph)
      ∧ ((kgRun sup a).document_id = a.document_id
        ∧ (kgRun sup a).file_name = a.file_name
        ∧ (kgRun sup a).metadata = a.metadata
        ∧ (kgRun sup a).extracted_parties = a.extracted_parties
        ∧ (kgRun sup a).extracted_dates = a.extracted_dates
        ∧ (kgRun sup a).extracted_monetary_values = a.extracted_monetary_values
        ∧ (kgRun sup a).extracted_defined_terms = a.extracted_defined_terms
        ∧ (kgRun sup a).extracted_clauses_summary = a.extracted_clauses_summary
        ∧ (kgRun sup a).analysis_summary = a.analysis_summary
        ∧ (kgRun sup a).full_text_content = a.full_text_content
        ∧ (kgRun sup a).paragraphs = a.paragraphs
        ∧ (kgRun sup a).compliance_findings = a.compliance_findings) := by
  intro rules oracle sup a
  exact ⟨⟨rfl, rfl, rfl, rfl, rfl, rfl, rfl, rfl, rfl, rfl, rfl, rfl⟩,
         ⟨rfl, rfl, rfl, rfl, rfl, rfl, rfl, rfl, rfl, rfl, rfl, rfl⟩⟩

-- ------------------------------------------------------------------
-- C8 — query with no loaded context
-- ------------------------------------------------------------------

/-- C8: a query while no document context is loaded returns the canned
low-confidence "no document loaded" response, identically for every
collaborator outcome (the collaborator is never consulted). -/
theorem rag_no_context_canned :
    ∀ (jd : JsonDump) (query : String) (llm llm2 : Except LLMError RAGResponse),
      ragRun jd none query llm
        = { answer := "Please load a document first.", confidence := "Low"
            relevant_snippets := [], source_nodes := [] }
      ∧ ragRun jd none query llm = ragRun jd none query llm2 :=
  fun _ _ _ _ => ⟨rfl, rfl⟩

-- ------------------------------------------------------------------
-- C10 — metadata defaults
-- ------------------------------------------------------------------

/-- C10: the assembled metadata never lacks a document type or title —
an absent or empty extracted document type defaults to "Uncategorized",
an absent or empty title defaults to the input file's name, and an
absent or empty summary defaults to "No summary generated by LLM.". -/
theorem metadata_defaults (document_id : String) (llm : Except LLMError ExtractedEntities)
    (doc : DocumentContent) :
    ((extractorCompute document_id llm doc).metadata.title).isSome = true
    ∧ (extractorCompute document_id llm doc).metadata.document_type ≠ ""
    ∧ ((llmBundle llm).document_type = none ∨ (llmBundle llm).document_type = some "" →
        (extractorCompute document_id llm doc).metadata.document_type = "Uncategorized")
    ∧ ((llmBundle llm).document_title = none ∨ (llmBundle llm).document_title = some "" →
        (extractorCompute document_id llm doc).metadata.title = some doc.file_name)
    ∧ ((llmBundle llm).analysis_summary = none ∨ (llmBundle llm).analysis_summary = some "" →
        (extractorCompute document_id llm doc).analysis_summary
          = "No summary generated by LLM.") := by
  refine ⟨rfl, ?_, ?_, ?_, ?_⟩
  · exact pyOr_ne_empty _ _ (by decide)
  · intro h
    show pyOr (llmBundle llm).document_type "Uncategorized" = "Uncategorized"
    exact pyOr_default _ _ h
  · intro h
    show some (pyOr (llmBundle llm).document_title doc.file_name) = some doc.file_name
    rw [pyOr_default _ _ h]
  · intro h
    show pyOr (llmBundle llm).analysis_summary "No summary generated by LLM." = _
    exact pyOr_default _ _ h

/-- A sample input document used by concrete witnesses. -/
def sampleDoc : DocumentContent :=
  { text_content := "This Agreement is made between ABC Corp and XYZ Ltd."
    file_name := "contract.txt"
    file_type := "txt"
    paragraphs := [{ text := "This Agreement is made between ABC Corp and XYZ Ltd."
                     index := 0 }] }

/-- Witness for C10 at a concrete run whose bundle has no type, title or
summary: all three defaults fire. -/
theorem metadata_defaults_witness :
    (extractorCompute "doc-1" (Except.ok {}) sampleDoc).metadata.document_type
        = "Uncategorized"
    ∧ (extractorCompute "doc-1" (Except.ok {}) sampleDoc).metadata.title
        = some "contract.txt"
    ∧ (extractorCompute "doc-1" (Except.ok {}) sampleDoc).analysis_summary
        = "No summary generated by LLM." := by
  have h := metadata_defaults "doc-1" (Except.ok {}) sampleDoc
  exact ⟨h.2.2.1 (Or.inl rfl), h.2.2.2.1 (Or.inl rfl), h.2.2.2.2 (Or.inl rfl)⟩

-- ------------------------------------------------------------------
-- C3 — extraction failure degrades to an all-default bundle
-- ------------------------------------------------------------------

/-- C3: when the collaborator fails (validation error or any exception)
and the cache does not yield a valid entry, the Extraction stage does
not propagate the error: it proceeds with the all-default-empty
`ExtractedEntities` (every list field empty, every optional scalar
unset) and still returns a complete `DocumentAnalysisResult`. -/
theorem extraction_failure_degrades (document_id : String) (cache : ExtractionCache)
    (doc : DocumentContent) (err : LLMError)
    (hmiss : ∀ r0, cacheLookup cache (cacheKeyOf document_id) ≠ some (some r0)) :
    extractorRun document_id cache (Except.error err) doc
      = extractorCompute document_id (Except.ok {}) doc
    ∧ llmBundle (Except.error err) = ({} : ExtractedEntities)
    ∧ (({} : ExtractedEntities).parties = []
       ∧ ({} : ExtractedEntities).dates = []
       ∧ ({} : ExtractedEntities).monetary_values = []
       ∧ ({} : ExtractedEntities).defined_terms = []
       ∧ ({} : ExtractedEntities).indemnification_clauses = []
       ∧ ({} : ExtractedEntities).force_majeure_clauses = []
       ∧ ({} : ExtractedEntities).governing_law_clauses = []
       ∧ ({} : ExtractedEntities).confidentiality_clauses = []
       ∧ ({} : ExtractedEntities).termination_clauses = []
       ∧ ({} : ExtractedEntities).document_type = none
       ∧ ({} : ExtractedEntities).document_title = none
       ∧ ({} : ExtractedEntities).document_effective_date = none
       ∧ ({} : ExtractedEntities).jurisdiction = none
       ∧ ({} : ExtractedEntities).analysis_summary = none)
    ∧ extractorRun document_id cache (Except.error err) doc
      = { document_id := document_id
          file_name := doc.file_name
          metadata := { document_type := "Uncategorized"
                        title := some doc.file_name
                        effective_date := none
                        parties_summary := []
                        jurisdiction := none
                        version := none }
          extracted_parties := []
          extracted_dates := []
          extracted_monetary_values := []
          extracted_defined_terms := []
          extracted_clauses_summary := []
          compliance_findings := []
          analysis_summary := "No summary generated by LLM."
          full_text_content := doc.text_content
          paragraphs := doc.paragraphs
          knowledge_graph := none } := by
  have hrun : extractorRun document_id cache (Except.error err) doc
      = extractorCompute document_id (Except.error err) doc := by
    unfold extractorRun
    split
    · next r0 heq => exact absurd heq (hmiss r0)
    · rfl
  refine ⟨hrun.trans rfl, rfl,
    ⟨rfl, rfl, rfl, rfl, rfl, rfl, rfl, rfl, rfl, rfl, rfl, rfl, rfl, rfl⟩, ?_⟩
  rw [hrun]
  rfl

/-- Witness for C3 at an empty cache (a guaranteed miss) and a concrete
collaborator exception. -/
theorem extraction_failure_degrades_witness :
    (extractorRun "doc-1" [] (Except.error (LLMError.other "boom")) sampleDoc).extracted_parties
        = []
    ∧ (extractorRun "doc-1" [] (Except.error (LLMError.other "boom")) sampleDoc).analysis_summary
        = "No summary generated by LLM."
    ∧ (extractorRun "doc-1" [] (Except.error (LLMError.other "boom")) sampleDoc).metadata.document_type
        = "Uncategorized" := by
  have h := extraction_failure_degrades "doc-1" [] sampleDoc (LLMError.other "boom")
    (fun r0 h0 => by simp [cacheLookup] at h0)
  exact ⟨by rw [h.2.2.2], by rw [h.2.2.2], by rw [h.2.2.2]⟩

-- ------------------------------------------------------------------
-- C5 — effective-date fallback
-- ------------------------------------------------------------------

/-- The fallback characterization of the derived primary date: with no
explicit date and a non-empty date list, the keyword scan's first match
wins, else the first date in list order. -/
theorem derivePrimaryDate_fallback (e : ExtractedEntities) (d0 : DateClause)
    (rest : List DateClause) (hnone : e.document_effective_date = none)
    (hdates : e.dates = d0 :: rest) :
    derivePrimaryDate e = some ((findKeywordDate e.dates).getD d0.date_value) := by
  unfold derivePrimaryDate
  rw [hnone, hdates]
  cases hkw : findKeywordDate (d0 :: rest) with
  | some v => simp [hdates, hkw]
  | none => simp [hdates, hkw]

/-- The dates of the concrete example of C5: an "Execution Date" entry
(2024-01-01) followed by a "Random Note" entry (2024-06-01). -/
def c5Dates : List DateClause :=
  [{ date_type := "Execution Date", date_value := ⟨2024, 1, 1⟩ },
   { date_type := "Random Note", date_value := ⟨2024, 6, 1⟩ }]

/-- The extraction bundle of the concrete example of C5: no explicit
`document_effective_date`, only the two dates. -/
def c5Entities : ExtractedEntities := { dates := c5Dates }

/-- C5: with no explicit effective date but a non-empty dates list, the
derived metadata effective date is the first keyword match of the
priority scan (keywords in the fixed priority order, case-insensitive
substring against each entry's type label), else the first date in list
order; on the concrete "Execution Date"/"Random Note" example the
result is 2024-01-01. -/
theorem effective_date_fallback :
    (∀ (document_id : String) (doc : DocumentContent) (e : ExtractedEntities)
       (d0 : DateClause) (rest : List DateClause),
       e.document_effective_date = none → e.dates = d0 :: rest →
       (extractorCompute document_id (Except.ok e) doc).metadata.effective_date
         = some ((findKeywordDate e.dates).getD d0.date_value))
    ∧ effectiveDateKeywords = ["effective date", "policy date", "agreement date",
        "execution date", "document date", "date"]
    ∧ (extractorCompute "doc-1" (Except.ok c5Entities) sampleDoc).metadata.effective_date
        = some ⟨2024, 1, 1⟩ := by
  refine ⟨?_, rfl, ?_⟩
  · intro document_id doc e d0 rest hnone hdates
    show derivePrimaryDate e = _
    exact derivePrimaryDate_fallback e d0 rest hnone hdates
  · rfl

/-- Witness for C5: the fallback theorem applied at the concrete
example, with its hypotheses discharged there. -/
theorem effective_date_fallback_witness :
    (extractorCompute "doc-1" (Except.ok c5Entities) sampleDoc).metadata.effective_date
      = some ((findKeywordDate c5Entities.dates).getD (⟨2024, 1, 1⟩ : PyDate)) := by
  exact effective_date_fallback.1 "doc-1" sampleDoc c5Entities
    { date_type := "Execution Date", date_value := ⟨2024, 1, 1⟩ } _ rfl rfl

-- ------------------------------------------------------------------
-- C6 — fresh identifier makes the cache lookup a guaranteed miss
-- ------------------------------------------------------------------

/-- C6: distinct document identifiers give distinct cache keys, and on a
cache whose entries were only ever written under identifiers from
earlier invocations, a lookup under a fresh identifier is a guaranteed
miss, so the full extraction path runs. -/
theorem fresh_id_cache_miss :
    (∀ id1 id2 : String, id1 ≠ id2 → cacheKeyOf id1 ≠ cacheKeyOf id2)
    ∧ ∀ (used : List String) (cache : ExtractionCache) (freshId : String)
        (llm : Except LLMError ExtractedEntities) (doc : DocumentContent),
        (∀ kv ∈ cache, ∃ u ∈ used, kv.1 = cacheKeyOf u) →
        freshId ∉ used →
        cacheLookup cache (cacheKeyOf freshId) = none
        ∧ extractorRun freshId cache llm doc = extractorCompute freshId llm doc := by
  constructor
  · intro id1 id2 hne h
    exact hne (string_append_left_cancel _ _ _ h)
  · intro used cache freshId llm doc hcache hfresh
    have hnone : cacheLookup cache (cacheKeyOf freshId) = none := by
      have hfind : cache.find? (fun kv => kv.1 == cacheKeyOf freshId) = none := by
        rw [List.find?_eq_none]
        intro kv hkv
        obtain ⟨u, hu, heq⟩ := hcache kv hkv
        simp only [beq_iff_eq]
        intro hkeq
        rw [heq] at hkeq
        have hue := string_append_left_cancel _ _ _ hkeq
        exact hfresh (hue ▸ hu)
      simp [cacheLookup, hfind]
    refine ⟨hnone, ?_⟩
    unfold extractorRun
    rw [hnone]

/-- Witness for C6: a cache holding one entry written under the earlier
identifier "id-0" misses for the fresh identifier "id-1". -/
theorem fresh_id_cache_miss_witness :
    cacheKeyOf "id-0" ≠ cacheKeyOf "id-1"
    ∧ cacheLookup [("full_analysis_cache:id-0", (none : Option DocumentAnalysisResult))]
        (cacheKeyOf "id-1") = none := by
  have h1 := fresh_id_cache_miss.1 "id-0" "id-1" (by decide)
  have h2 := fresh_id_cache_miss.2 ["id-0"]
    [("full_analysis_cache:id-0", none)] "id-1" (Except.ok {}) sampleDoc
    (by
      intro kv hkv
      refine ⟨"id-0", by simp, ?_⟩
      have : kv = ("full_analysis_cache:id-0", (none : Option DocumentAnalysisResult)) := by
        simpa using hkv
      rw [this]
      decide)
    (by decide)
  exact ⟨h1, h2.1⟩

-- ------------------------------------------------------------------
-- C4 — per-rule isolation in the Compliance stage
-- ------------------------------------------------------------------

/-- The finding produced for index `i` of the rule list. -/
theorem complianceRun_getD (rules : List ComplianceRule) (oracle : RuleOracle)
    (a : DocumentAnalysisResult) (i : Nat) (hi : i < rules.length)
    (dfltF : ComplianceFinding) (dfltR : ComplianceRule) :
    ((complianceRun rules oracle a).compliance_findings).getD i dfltF
      = mkFinding (rules.getD i dfltR)
          (assess_rule_with_llm oracle (rules.getD i dfltR) a.full_text_content
            (entitiesOfResult a)) := by
  show ((rules.map _).getD i dfltF) = _
  rw [getD_map_of_lt _ rules i hi dfltF dfltR]

/-- C4: if the assessment call for rule `k` fails, the stage still
produces one finding per rule, in rule declaration order (finding `i`
carries rule `i`'s id), with rule `k`'s finding non-compliant and
carrying the error-derived detail message; findings of rules whose
assessments are unchanged are unchanged (no rule failure aborts the
rest). -/
theorem per_rule_isolation (rules : List ComplianceRule) (oracle oracle2 : RuleOracle)
    (a : DocumentAnalysisResult) (k : Nat) (err : LLMError)
    (dfltF : ComplianceFinding) (dfltR : ComplianceRule)
    (hk : k < rules.length)
    (hfail : oracle (rules.getD k dfltR) a.full_text_content (entitiesOfResult a)
      = Except.error err) :
    ((complianceRun rules oracle a).compliance_findings).length = rules.length
    ∧ (∀ i, i < rules.length →
        (((complianceRun rules oracle a).compliance_findings).getD i dfltF).rule_id
          = (rules.getD i dfltR).rule_id)
    ∧ (((complianceRun rules oracle a).compliance_findings).getD k dfltF).is_compliant
        = false
    ∧ (((complianceRun rules oracle a).compliance_findings).getD k dfltF).finding_details
        = some (ruleFailureDetails err)
    ∧ ((∀ i, i < rules.length → i ≠ k →
          oracle2 (rules.getD i dfltR) a.full_text_content (entitiesOfResult a)
            = oracle (rules.getD i dfltR) a.full_text_content (entitiesOfResult a)) →
        ∀ i, i < rules.length → i ≠ k →
          ((complianceRun rules oracle2 a).compliance_findings).getD i dfltF
            = ((complianceRun rules oracle a).compliance_findings).getD i dfltF) := by
  have hfailed : assess_rule_with_llm oracle (rules.getD k dfltR) a.full_text_content
      (entitiesOfResult a)
      = { rule_id := (rules.getD k dfltR).rule_id
          is_compliant := false
          finding_details := some (ruleFailureDetails err)
          relevant_text_snippets := []
          recommendation := some (ruleFailureRecommendation err) } := by
    unfold assess_rule_with_llm
    rw [hfail]
  refine ⟨by simp [complianceRun], ?_, ?_, ?_, ?_⟩
  · intro i hi
    rw [complianceRun_getD rules oracle a i hi dfltF dfltR]
    rfl
  · rw [complianceRun_getD rules oracle a k hk dfltF dfltR, hfailed]
    rfl
  · rw [complianceRun_getD rules oracle a k hk dfltF dfltR, hfailed]
    rfl
  · intro hagree i hi hik
    rw [complianceRun_getD rules oracle a i hi dfltF dfltR,
        complianceRun_getD rules oracle2 a i hi dfltF dfltR]
    unfold assess_rule_with_llm
    rw [hagree i hi hik]

/-- A concrete assessment oracle for the C4 witness: fails on rule
"LEASE-001", succeeds elsewhere. -/
def c4Oracle : RuleOracle := fun rule _ _ =>
  if rule.rule_id = "LEASE-001" then Except.error (LLMError.validation "bad shape")
  else Except.ok { rule_id := rule.rule_id, is_compliant := true }

/-- A minimal analysis result used by concrete witnesses. -/
def sampleResult : DocumentAnalysisResult :=
  { document_id := "doc-1"
    file_name := "contract.txt"
    metadata := { document_type := "Lease Agreement", title := some "Lease" }
    analysis_summary := "A lease."
    full_text_content := "This Agreement is made between ABC Corp and XYZ Ltd." }

/-- Witness for C4: on the hardcoded four-rule set with the oracle
failing on the second rule (index 1), the four findings survive, the
second is non-compliant with the error-derived details. -/
theorem per_rule_isolation_witness :
    ((complianceRun loadComplianceRules c4Oracle sampleResult).compliance_findings).length
        = loadComplianceRules.length
    ∧ (((complianceRun loadComplianceRules c4Oracle sampleResult).compliance_findings).getD 1
        { rule_id := "", rule_description := "", is_compliant := true }).is_compliant = false
    ∧ (((complianceRun loadComplianceRules c4Oracle sampleResult).compliance_findings).getD 1
        { rule_id := "", rule_description := "", is_compliant := true }).finding_details
        = some (ruleFailureDetails (LLMError.validation "bad shape")) := by
  have h := per_rule_isolation loadComplianceRules c4Oracle c4Oracle sampleResult 1
    (LLMError.validation "bad shape")
    { rule_id := "", rule_description := "", is_compliant := true }
    { rule_id := "", name := "", description := "", check_criteria := ""
      recommendation_template := "" }
    (by decide) rfl
  exact ⟨h.1, h.2.2.1, h.2.2.2.1⟩

-- ------------------------------------------------------------------
-- C7 — citations come from local keyword matching, not the collaborator
-- ------------------------------------------------------------------

/-- The locally computed knowledge-graph citation list: ids of the nodes
matching the lowered query (rag_agent.py, lines 66-73), empty when no
graph is present. -/
def ragNodeIds (query_lower : String) : Option KnowledgeGraph → List String
  | none => []
  | some kg => (kg.nodes.filter (nodeMatches query_lower)).map (fun n => n.id)

/-- The snippets component of the retrieved context is the local
paragraph keyword scan. -/
theorem retrieveContext_snips (jd : JsonDump) (a : DocumentAnalysisResult) (query : String) :
    (retrieveContext jd a query).2.1 = snipLoop (lowerStr query) a.paragraphs [] := rfl

/-- The node-ids component of the retrieved context is the local
knowledge-graph keyword scan. -/
theorem retrieveContext_nodes (jd : JsonDump) (a : DocumentAnalysisResult) (query : String) :
    (retrieveContext jd a query).2.2 = ragNodeIds (lowerStr query) a.knowledge_graph := by
  unfold retrieveContext ragNodeIds
  cases hkg : a.knowledge_graph <;> rfl

/-- The paragraph keyword scan collects at most 3 snippets. -/
theorem snipLoop_le_three (ql : String) :
    ∀ (ps : List Paragraph) (acc : List String), acc.length < 3 →
      (snipLoop ql ps acc).length ≤ 3 := by
  intro ps
  induction ps with
  | nil =>
    intro acc h
    exact Nat.le_of_lt h
  | cons p rest ih =>
    intro acc h
    unfold snipLoop
    by_cases hc : strContains (lowerStr p.text) ql = true
    · rw [if_pos hc]
      show (if (acc ++ [mkSnippet ql p.text]).length ≥ 3 then acc ++ [mkSnippet ql p.text]
            else snipLoop ql rest (acc ++ [mkSnippet ql p.text])).length ≤ 3
      by_cases h3 : (acc ++ [mkSnippet ql p.text]).length ≥ 3
      · rw [if_pos h3]
        simp only [List.length_append, List.length_singleton]
        omega
      · rw [if_neg h3]
        apply ih
        simp only [List.length_append, List.length_singleton] at h3 ⊢
        omega
    · rw [if_neg hc]
      exact ih acc h

/-- C7: on a collaborator success with a loaded context, the returned
response keeps only the collaborator's answer text and confidence; its
`relevant_snippets` and `source_nodes` are replaced by the locally
computed keyword-match lists (paragraph snippets, at most 3, and the
matching knowledge-graph node ids). -/
theorem rag_overwrites_citations (jd : JsonDump) (a : DocumentAnalysisResult)
    (query : String) (resp : RAGResponse) :
    ragRun jd (some a) query (Except.ok resp)
      = { answer := resp.answer
          confidence := resp.confidence
          relevant_snippets := snipLoop (lowerStr query) a.paragraphs []
          source_nodes := ragNodeIds (lowerStr query) a.knowledge_graph }
    ∧ (snipLoop (lowerStr query) a.paragraphs []).length ≤ 3 := by
  constructor
  · have hne : (retrieveContext jd a query).1 ≠ "" :=
      joinStr_cons_ne_empty "\n\n" _ _ (string_append_ne_empty_left _ _ (by decide))
    unfold ragRun
    dsimp only
    rw [if_neg hne]
    rw [retrieveContext_snips, retrieveContext_nodes]
  · exact snipLoop_le_three (lowerStr query) a.paragraphs [] (by decide)

-- ------------------------------------------------------------------
-- C1 / C2 — knowledge-graph construction invariants
-- ------------------------------------------------------------------

def KGWF (s : KGState) : Prop :=
  s.idMap = s.nodes.map (fun n => n.id) ∧ s.idMap.Nodup

def edgesClosed (s : KGState) : Prop :=
  ∀ e ∈ s.edges, e.source_id ∈ s.idMap ∧ e.target_id ∈ s.idMap

def KGInv (s : KGState) : Prop := KGWF s ∧ edgesClosed s

theorem add_node_inv (s : KGState) (i ty nm : String) (attrs : List (String × PyVal))
    (h : KGInv s) : KGInv (add_node s i ty nm attrs).1 := by
  unfold add_node
  by_cases hmem : i ∈ s.idMap
  · rw [if_pos hmem]
    exact h
  · rw [if_neg hmem]
    obtain ⟨⟨hmap, hnd⟩, hcl⟩ := h
    refine ⟨⟨?_, ?_⟩, ?_⟩
    · show s.idMap ++ [i]
          = (s.nodes ++ [(⟨i, ty, nm, attrs⟩ : Node)]).map (fun n => n.id)
      rw [List.map_append, hmap]
      rfl
    · show (s.idMap ++ [i]).Nodup
      simp [List.nodup_append, hnd, hmem]
    · intro e he
      have h2 := hcl e he
      exact ⟨List.mem_append_left _ h2.1, List.mem_append_left _ h2.2⟩

theorem add_edge_inv (s : KGState) (src tgt ty : String) (attrs : List (String × PyVal))
    (h : KGInv s) : KGInv (add_edge s src tgt ty attrs) := by
  unfold add_edge
  by_cases hc : src ∉ s.idMap ∨ tgt ∉ s.idMap
  · rw [if_pos hc]
    exact h
  · rw [if_neg hc]
    push_neg at hc
    obtain ⟨hwf, hcl⟩ := h
    refine ⟨hwf, ?_⟩
    intro e he
    rcases List.mem_append.mp he with h1 | h1
    · exact hcl e h1
    · rcases List.mem_singleton.mp h1 with rfl
      exact ⟨hc.1, hc.2⟩

theorem ctr_inv (s : KGState) (n : Nat) (h : KGInv s) : KGInv { s with ctr := n } := h

theorem procEffectiveDate_inv (docId : String) (md : DocumentMetadata) (s : KGState)
    (h : KGInv s) : KGInv (procEffectiveDate docId md s) := by
  unfold procEffectiveDate
  cases md.effective_date with
  | none => exact h
  | some d => exact add_edge_inv _ _ _ _ _ (add_node_inv _ _ _ _ _ h)

theorem procJurisdiction_inv (docId : String) (md : DocumentMetadata) (s : KGState)
    (h : KGInv s) : KGInv (procJurisdiction docId md s) := by
  unfold procJurisdiction
  cases md.jurisdiction with
  | none => exact h
  | some j =>
    dsimp only
    by_cases hj : j = ""
    · rw [if_pos hj]; exact h
    · rw [if_neg hj]; exact add_edge_inv _ _ _ _ _ (add_node_inv _ _ _ _ _ h)

theorem procParty_inv (docId : String) (s : KGState) (p : Party)
    (h : KGInv s) : KGInv (procParty docId s p) :=
  add_edge_inv _ _ _ _ _ (add_node_inv _ _ _ _ _ h)

theorem procDate_inv (docId : String) (s : KGState) (d : DateClause)
    (h : KGInv s) : KGInv (procDate docId s d) :=
  add_edge_inv _ _ _ _ _ (add_node_inv _ _ _ _ _ h)

theorem procMV_inv (docId : String) (s : KGState) (mv : MonetaryValue)
    (h : KGInv s) : KGInv (procMV docId s mv) :=
  add_edge_inv _ _ _ _ _ (add_node_inv _ _ _ _ _ h)

theorem procTerm_inv (docId : String) (s : KGState) (dt : DefinedTerm)
    (h : KGInv s) : KGInv (procTerm docId s dt) :=
  add_edge_inv _ _ _ _ _ (add_node_inv _ _ _ _ _ h)

theorem procClause_inv (sup : Nat → String) (docId ty : String) (s : KGState)
    (rec : ClauseRec) (h : KGInv s) : KGInv (procClause sup docId ty s rec) := by
  unfold procClause
  by_cases hdur : ty = "ConfidentialityClause"
      ∧ ((recGet rec "duration_years").map PyVal.truthy).getD false = true
  · rw [if_pos hdur]
    exact add_edge_inv _ _ _ _ _ (add_node_inv _ _ _ _ _
      (add_edge_inv _ _ _ _ _ (add_node_inv _ _ _ _ _ (ctr_inv s _ h))))
  · rw [if_neg hdur]
    exact add_edge_inv _ _ _ _ _ (add_node_inv _ _ _ _ _ (ctr_inv s _ h))

theorem emptyState_inv : KGInv ({} : KGState) :=
  ⟨⟨rfl, List.nodup_nil⟩, fun e he => absurd he (List.not_mem_nil e)⟩

theorem buildState_inv (sup : Nat → String) (a : DocumentAnalysisResult) :
    KGInv (buildState sup a) := by
  unfold buildState
  apply foldl_preserve KGInv _
    (fun s kv hs => foldl_preserve KGInv _
      (fun s2 rec h2 => procClause_inv sup _ kv.1 s2 rec h2) kv.2 s hs)
  apply foldl_preserve KGInv _ (fun s dt hs => procTerm_inv _ s dt hs)
  apply foldl_preserve KGInv _ (fun s mv hs => procMV_inv _ s mv hs)
  apply foldl_preserve KGInv _ (fun s d hs => procDate_inv _ s d hs)
  apply foldl_preserve KGInv _ (fun s p hs => procParty_inv _ s p hs)
  apply procJurisdiction_inv
  apply procEffectiveDate_inv
  exact add_node_inv _ _ _ _ _ emptyState_inv

/-- C1: an edge whose source or target id was never added as a node is
silently dropped (the edge list — indeed the whole state — is unchanged
and nothing is raised), and consequently every edge of the final
`KnowledgeGraph` references node ids present in the graph's node set. -/
theorem dangling_edges_dropped :
    (∀ (s : KGState) (src tgt ty : String) (attrs : List (String × PyVal)),
       src ∉ s.idMap ∨ tgt ∉ s.idMap →
       (add_edge s src tgt ty attrs).edges = s.edges ∧ add_edge s src tgt ty attrs = s)
    ∧ (∀ (sup : Nat → String) (a : DocumentAnalysisResult) (g : KnowledgeGraph),
       (kgRun sup a).knowledge_graph = some g →
       ∀ e ∈ g.edges, e.source_id ∈ g.nodes.map (fun n => n.id)
         ∧ e.target_id ∈ g.nodes.map (fun n => n.id)) := by
  constructor
  · intro s src tgt ty attrs h
    have heq : add_edge s src tgt ty attrs = s := by
      unfold add_edge
      rw [if_pos h]
    exact ⟨by rw [heq], heq⟩
  · intro sup a g hg e he
    obtain ⟨⟨hmap, hnd⟩, hcl⟩ := buildState_inv sup a
    have hg2 : g = { nodes := (buildState sup a).nodes, edges := (buildState sup a).edges } := by
      unfold kgRun at hg
      exact (Option.some.inj hg).symm
    subst hg2
    have h2 := hcl e he
    rw [hmap] at h2
    exact h2

def kgSampleResult : DocumentAnalysisResult :=
  { document_id := "doc-1"
    file_name := "contract.txt"
    metadata := { document_type := "NDA" }
    extracted_parties := [{ name := "ABC Corp" }]
    analysis_summary := "s"
    full_text_content := "t" }

def kgSampleGraph : KnowledgeGraph :=
  { nodes := (buildState (fun _ => "u") kgSampleResult).nodes
    edges := (buildState (fun _ => "u") kgSampleResult).edges }

def kgSampleEdge : Edge :=
  { source_id := "Document:doc-1", target_id := "Party:ABC_Corp", type := "HAS_PARTY"
    attributes := [("role", PyVal.vnone)] }

/-- Witness for C1: a dangling edge on the empty state is dropped, and
the one real edge of a concrete build has both endpoints among the
node ids. -/
theorem dangling_edges_dropped_witness :
    (add_edge {} "a" "b" "HAS_PARTY" []).edges = ({} : KGState).edges
    ∧ ("Document:doc-1" ∈ kgSampleGraph.nodes.map (fun n => n.id)
       ∧ "Party:ABC_Corp" ∈ kgSampleGraph.nodes.map (fun n => n.id)) := by
  have h1 := (dangling_edges_dropped.1 {} "a" "b" "HAS_PARTY" []
    (Or.inl (List.not_mem_nil "a"))).1
  have h2 := dangling_edges_dropped.2 (fun _ => "u") kgSampleResult kgSampleGraph rfl
    kgSampleEdge (by decide)
  exact ⟨h1, h2⟩

theorem add_node_idem (s : KGState) (i ty nm : String) (attrs : List (String × PyVal))
    (hwf : KGWF s) (hmem : i ∈ s.idMap) :
    (add_node s i ty nm attrs).1 = s
    ∧ (∃ n : Node, (add_node s i ty nm attrs).2 = some n ∧ n ∈ s.nodes ∧ n.id = i)
    ∧ (s.nodes.filter (fun m => m.id == i)).length = 1 := by
  obtain ⟨hmap, hnd⟩ := hwf
  have hmem2 : i ∈ s.nodes.map (fun n => n.id) := hmap ▸ hmem
  refine ⟨?_, ?_, ?_⟩
  · unfold add_node
    rw [if_pos hmem]
  · obtain ⟨n, hn, hni⟩ := List.mem_map.mp hmem2
    have hsome : (s.nodes.find? (fun m => m.id == i)).isSome := by
      rw [List.find?_isSome]
      exact ⟨n, hn, by simp [hni]⟩
    obtain ⟨n0, hfind⟩ := Option.isSome_iff_exists.mp hsome
    refine ⟨n0, ?_, List.mem_of_find?_eq_some hfind, by simpa using List.find?_some hfind⟩
    unfold add_node
    rw [if_pos hmem]
    exact hfind
  · have hndmap : (s.nodes.map (fun n => n.id)).Nodup := hmap ▸ hnd
    have hcnt : (s.nodes.map (fun n => n.id)).count i = 1 :=
      List.count_eq_one_of_mem hndmap hmem2
    calc (s.nodes.filter (fun m => m.id == i)).length
        = s.nodes.countP (fun m => m.id == i) := (List.countP_eq_length_filter _ _).symm
      _ = (s.nodes.map (fun n => n.id)).countP (fun x => x == i) := by
          rw [List.countP_map]; rfl
      _ = (s.nodes.map (fun n => n.id)).count i := rfl
      _ = 1 := hcnt

def nonClauseId (i : String) : Bool := i.data.head? != some 'C'

def kgProj (s : KGState) : List Node × List String × Nat :=
  (s.nodes.filter (fun n => n.type != "Clause"), s.idMap.filter nonClauseId, s.ctr)

def nonClauseIds (s : KGState) : List String :=
  (s.nodes.filter (fun n => n.type != "Clause")).map (fun n => n.id)

theorem add_edge_proj (s : KGState) (x y z : String) (w : List (String × PyVal)) :
    kgProj (add_edge s x y z w) = kgProj s := by
  unfold add_edge
  split <;> rfl

theorem add_node_proj_det (s t : KGState) (i ty nm : String) (attrs : List (String × PyVal))
    (hi : nonClauseId i = true) (hty : (ty != "Clause") = true)
    (h : kgProj s = kgProj t) :
    kgProj (add_node s i ty nm attrs).1 = kgProj (add_node t i ty nm attrs).1 := by
  have hn : s.nodes.filter (fun n => n.type != "Clause")
      = t.nodes.filter (fun n => n.type != "Clause") := congrArg Prod.fst h
  have hid : s.idMap.filter nonClauseId = t.idMap.filter nonClauseId :=
    congrArg (fun x => x.2.1) h
  have hctr : s.ctr = t.ctr := congrArg (fun x => x.2.2) h
  have hmemiff : (i ∈ s.idMap) ↔ (i ∈ t.idMap) := by
    constructor
    · intro hm
      have := List.mem_filter.mpr ⟨hm, hi⟩
      rw [hid] at this
      exact (List.mem_filter.mp this).1
    · intro hm
      have := List.mem_filter.mpr ⟨hm, hi⟩
      rw [← hid] at this
      exact (List.mem_filter.mp this).1
  unfold add_node
  by_cases hm : i ∈ s.idMap
  · rw [if_pos hm, if_pos (hmemiff.mp hm)]
    exact h
  · rw [if_neg hm, if_neg (fun hc => hm (hmemiff.mpr hc))]
    show kgProj { s with nodes := _, idMap := _ } = kgProj { t with nodes := _, idMap := _ }
    unfold kgProj
    simp only [List.filter_append, List.filter_singleton, hi, hty]
    rw [hn, hid, hctr]

theorem add_node_clause_proj (s : KGState) (i nm : String) (attrs : List (String × PyVal))
    (hi : nonClauseId i = false) :
    kgProj (add_node s i "Clause" nm attrs).1 = kgProj s := by
  unfold add_node
  by_cases hm : i ∈ s.idMap
  · rw [if_pos hm]
  · rw [if_neg hm]
    show kgProj { s with nodes := _, idMap := _ } = kgProj s
    unfold kgProj
    simp only [List.filter_append, List.filter_singleton, hi]
    simp

theorem ctr_proj_det (s t : KGState) (h : kgProj s = kgProj t) :
    kgProj { s with ctr := s.ctr + 1 } = kgProj { t with ctr := t.ctr + 1 } := by
  have hn := congrArg Prod.fst h
  have hid := congrArg (fun x : List Node × List String × Nat => x.2.1) h
  have hctr := congrArg (fun x : List Node × List String × Nat => x.2.2) h
  unfold kgProj at *
  simp only at hn hid hctr
  simp only [hn, hid, hctr]

theorem procClause_proj (sup sup2 : Nat → String) (docId ty : String) (rec : ClauseRec)
    (s t : KGState) (h : kgProj s = kgProj t) :
    kgProj (procClause sup docId ty s rec) = kgProj (procClause sup2 docId ty t rec) := by
  unfold procClause
  dsimp only
  have hmid :
      kgProj (add_edge (add_node { s with ctr := s.ctr + 1 }
          ("Clause:" ++ ty ++ ":" ++ sup s.ctr) "Clause"
          (String.mk (removeClauseWord ty.data))
          (recMerge [("text_excerpt", PyVal.vstr (String.mk ((recGetStr rec "clause_text").data.take 100)))] rec)).1
          docId ("Clause:" ++ ty ++ ":" ++ sup s.ctr) ("HAS_" ++ upperStr ty) [])
      = kgProj (add_edge (add_node { t with ctr := t.ctr + 1 }
          ("Clause:" ++ ty ++ ":" ++ sup2 t.ctr) "Clause"
          (String.mk (removeClauseWord ty.data))
          (recMerge [("text_excerpt", PyVal.vstr (String.mk ((recGetStr rec "clause_text").data.take 100)))] rec)).1
          docId ("Clause:" ++ ty ++ ":" ++ sup2 t.ctr) ("HAS_" ++ upperStr ty) []) := by
    rw [add_edge_proj, add_edge_proj]
    calc kgProj (add_node { s with ctr := s.ctr + 1 }
            ("Clause:" ++ ty ++ ":" ++ sup s.ctr) "Clause" _ _).1
        = kgProj { s with ctr := s.ctr + 1 } :=
          add_node_clause_proj _ ("Clause:" ++ ty ++ ":" ++ sup s.ctr) _ _ (by rfl)
      _ = kgProj { t with ctr := t.ctr + 1 } := ctr_proj_det s t h
      _ = kgProj (add_node { t with ctr := t.ctr + 1 }
            ("Clause:" ++ ty ++ ":" ++ sup2 t.ctr) "Clause" _ _).1 :=
          (add_node_clause_proj _ ("Clause:" ++ ty ++ ":" ++ sup2 t.ctr) _ _ (by rfl)).symm
  by_cases hcond : ty = "ConfidentialityClause"
      ∧ ((recGet rec "duration_years").map PyVal.truthy).getD false = true
  · rw [if_pos hcond, if_pos hcond]
    rw [add_edge_proj, add_edge_proj]
    refine add_node_proj_det _ _ _ "Duration" _ _ ?_ ?_ hmid <;> rfl
  · rw [if_neg hcond, if_neg hcond]
    exact hmid

theorem foldl_procClause_proj (sup sup2 : Nat → String) (docId ty : String) :
    ∀ (l : List ClauseRec) (s t : KGState), kgProj s = kgProj t →
      kgProj (l.foldl (procClause sup docId ty) s)
        = kgProj (l.foldl (procClause sup2 docId ty) t) := by
  intro l
  induction l with
  | nil => exact fun s t h => h
  | cons r rs ih =>
    intro s t h
    exact ih _ _ (procClause_proj sup sup2 docId ty r s t h)

theorem foldl_clauses_proj (sup sup2 : Nat → String) (docId : String) :
    ∀ (l : List (String × List ClauseRec)) (s t : KGState), kgProj s = kgProj t →
      kgProj (l.foldl (fun s0 kv => kv.2.foldl (procClause sup docId kv.1) s0) s)
        = kgProj (l.foldl (fun s0 kv => kv.2.foldl (procClause sup2 docId kv.1) s0) t) := by
  intro l
  induction l with
  | nil => exact fun s t h => h
  | cons kv kvs ih =>
    intro s t h
    exact ih _ _ (foldl_procClause_proj sup sup2 docId kv.1 kv.2 s t h)

theorem buildState_proj (sup sup2 : Nat → String) (a : DocumentAnalysisResult) :
    kgProj (buildState sup a) = kgProj (buildState sup2 a) := by
  unfold buildState
  exact foldl_clauses_proj sup sup2 _ _ _ _ rfl

/-- C2: adding a node with an id already present is a no-op returning
the existing node (exactly one node with that id exists), and the
non-clause node ids of the built graph are independent of the uuid
supply — building twice from the same `DocumentAnalysisResult` yields
the same id for every non-clause entity. -/
theorem node_identity_idempotent :
    (∀ (s : KGState) (i ty nm : String) (attrs : List (String × PyVal)),
       KGWF s → i ∈ s.idMap →
       (add_node s i ty nm attrs).1 = s
       ∧ (∃ n : Node, (add_node s i ty nm attrs).2 = some n ∧ n ∈ s.nodes ∧ n.id = i)
       ∧ (s.nodes.filter (fun m => m.id == i)).length = 1)
    ∧ (∀ (sup sup2 : Nat → String) (a : DocumentAnalysisResult),
       nonClauseIds (buildState sup a) = nonClauseIds (buildState sup2 a)) := by
  constructor
  · intro s i ty nm attrs hwf hmem
    exact add_node_idem s i ty nm attrs hwf hmem
  · intro sup sup2 a
    unfold nonClauseIds
    have h := congrArg Prod.fst (buildState_proj sup sup2 a)
    unfold kgProj at h
    simp only at h
    rw [h]

/-- Witness for C2: re-adding a concrete party node is a no-op leaving
exactly one node, and two concrete builds under different uuid supplies
agree on all non-clause node ids. -/
theorem node_identity_idempotent_witness :
    ((add_node (add_node {} "Party:ABC_Corp" "Party" "ABC Corp" []).1
        "Party:ABC_Corp" "Party" "ABC Corp" []).1
      = (add_node {} "Party:ABC_Corp" "Party" "ABC Corp" []).1)
    ∧ (((add_node {} "Party:ABC_Corp" "Party" "ABC Corp" []).1.nodes.filter
        (fun m => m.id == "Party:ABC_Corp")).length = 1)
    ∧ nonClauseIds (buildState (fun _ => "aaaa") sampleResult)
        = nonClauseIds (buildState (fun _ => "bbbb") sampleResult) := by
  have h := node_identity_idempotent.1 (add_node {} "Party:ABC_Corp" "Party" "ABC Corp" []).1
    "Party:ABC_Corp" "Party" "ABC Corp" [] (by constructor <;> decide) (by decide)
  exact ⟨h.1, h.2.2, node_identity_idempotent.2 (fun _ => "aaaa") (fun _ => "bbbb") sampleResult⟩
